import Mathlib

/-
Shallow embedding of the devicectrl-esp32-dimmable-light firmware.

The repository has two dispatcher variants:
  * the decoupled device-control loop `app_task` in src/light.rs, driven by
    transport events over channels; and
  * a monolithic transport loop in src/transport.rs (`connection_task`,
    `open_connection`, `handle_message`, `update_state`, `query_state`,
    `send_identify_message`, `send_message`) where dispatch is inline.
Both are embedded below, faithfully to their sources.  External-crate
primitives (serde encoding, ECDSA sign/verify, the TCP socket, the PWM
channel) are modelled as parameters or oracles; bytes are `Nat` values
below 256 and byte strings are `List Nat`.
-/

namespace Spec2Proof

/-- Power variant of the shared switch type (`SwitchPower` in
devicectrl_common): `On` or `Off`. -/
inductive SwitchPower
  | On
  | Off
deriving DecidableEq

/-- Numeric-properties descriptor `{min, max, step}` (shared crate type used
by src/light.rs for `BRIGHTNESS_PROPS`). -/
structure NumericProperties where
  min : Nat
  max : Nat
  step : Nat
deriving DecidableEq

/-- The brightness bounds configured in src/light.rs:
`NumericProperties { min: 0, max: 100, step: 1 }`. -/
def BRIGHTNESS_PROPS : NumericProperties := ⟨0, 100, 1⟩

/-- Numeric state holding the current validated value (shared crate type;
src/light.rs only ever reads and writes its `value` field). -/
structure NumericState where
  value : Nat
deriving DecidableEq

/-- Modelled from the spec: the shared crate's `NumericProperties::to_state`
constructs the validated numeric state carrying the given value (src/light.rs
line 42 uses it to initialise the controller state to 0 at boot). -/
def NumericProperties.to_state (_props : NumericProperties) (v : Nat) : NumericState :=
  ⟨v⟩

/-- Modelled from the spec: the shared crate's numeric-update `apply_to` used
at src/light.rs line 77; per the spec a `Brightness(v)` update is an absolute
value clamped to `[min, max]` through the numeric-properties abstraction. -/
def apply_to (props : NumericProperties) (v : Nat) (_current : NumericState) : Nat :=
  Nat.max props.min (Nat.min v props.max)

/-- Dimmable-light state `{power, brightness}` as built by src/light.rs. -/
structure DimmableLightState where
  power : SwitchPower
  brightness : NumericState
deriving DecidableEq

/-- Led-strip state `{power: bool, brightness: u8}` as built by
src/transport.rs `query_state`. -/
structure LedStripState where
  power : Bool
  brightness : Nat
deriving DecidableEq

/-- Tagged device state (`DeviceState` in the shared crate); the decoupled
dispatcher reports the `DimmableLight` variant, the monolithic one reports
the `LedStrip` variant. -/
inductive DeviceState
  | DimmableLight : DimmableLightState → DeviceState
  | LedStrip : LedStripState → DeviceState
deriving DecidableEq

/-- Attribute update carried by an inbound update command in the decoupled
path (src/light.rs): `Power(bool-like) | Brightness(value) | other`.  The
`Brightness` payload is the absolute value interpreted through `apply_to`. -/
inductive AttributeUpdate
  | Power : SwitchPower → AttributeUpdate
  | Brightness : Nat → AttributeUpdate
  | Other : AttributeUpdate
deriving DecidableEq

/-- Inbound update command `{device_id, update}` consumed by src/light.rs. -/
structure UpdateCommand where
  device_id : String
  update : AttributeUpdate
deriving DecidableEq

/-- Device-bound message consumed by the decoupled dispatcher
(src/light.rs): `UpdateCommand | StateQuery{device_id} | other`. -/
inductive DeviceBoundSimpleMessage
  | UpdateCommand : UpdateCommand → DeviceBoundSimpleMessage
  | StateQuery : String → DeviceBoundSimpleMessage
  | Other : DeviceBoundSimpleMessage
deriving DecidableEq

/-- Outbound update notification `{device_id, reachable, new_state}`. -/
structure UpdateNotification where
  device_id : String
  reachable : Bool
  new_state : DeviceState
deriving DecidableEq

/-- Server-bound message: `Identify(device_id) | UpdateNotification(...)`. -/
inductive ServerBoundSimpleMessage
  | Identify : String → ServerBoundSimpleMessage
  | UpdateNotification : UpdateNotification → ServerBoundSimpleMessage
deriving DecidableEq

/-- Transport event delivered to `app_task` over the incoming channel:
`Connected`, `Error(err)`, or a decoded inbound `Message`. -/
inductive TransportEvent
  | Connected : TransportEvent
  | Error : TransportEvent
  | Message : DeviceBoundSimpleMessage → TransportEvent
deriving DecidableEq

/-- Function `build_state` from src/light.rs lines 26-35: power is `On` exactly when
the current brightness value is positive. -/
def build_state (current_brightness : NumericState) : DeviceState :=
  DeviceState.DimmableLight
    ⟨if current_brightness.value > 0 then SwitchPower.On else SwitchPower.Off,
     current_brightness⟩

/-- The target brightness computed by the `match update.update` at
src/light.rs lines 73-84: `Power(On) ↦ 1`, `Power(Off) ↦ 0`,
`Brightness(b) ↦ b.apply_to(current)`, anything else is ignored (`none`). -/
def target_brightness (current : NumericState) : AttributeUpdate → Option Nat
  | AttributeUpdate.Power SwitchPower.On => some 1
  | AttributeUpdate.Power SwitchPower.Off => some 0
  | AttributeUpdate.Brightness b => some (apply_to BRIGHTNESS_PROPS b current)
  | AttributeUpdate.Other => none

/-- Result of one iteration of the `app_task` loop: the controller state
after the event, the messages sent on the outgoing channel, and the duty
values written to the PWM channel (in order). -/
structure StepOut where
  state : NumericState
  sent : List ServerBoundSimpleMessage
  duty_writes : List Nat
deriving DecidableEq

/-- One iteration of the `app_task` loop in src/light.rs lines 44-126.
`device_id` is the build-time `DEVICE_ID`; `hw_ok` is whether the
`led_channel.set_duty` write issued by this iteration (if any) succeeds. -/
def app_step (device_id : String) (hw_ok : Bool) (current : NumericState) :
    TransportEvent → StepOut
  | TransportEvent.Connected =>
      ⟨current,
       [ServerBoundSimpleMessage.UpdateNotification
          ⟨device_id, true, build_state current⟩], []⟩
  | TransportEvent.Error => ⟨current, [], []⟩
  | TransportEvent.Message (DeviceBoundSimpleMessage.UpdateCommand update) =>
      if update.device_id ≠ device_id then ⟨current, [], []⟩
      else
        match target_brightness current update.update with
        | none => ⟨current, [], []⟩
        | some new_brightness =>
            let current1 :=
              if hw_ok then { current with value := new_brightness } else current
            ⟨current1,
             [ServerBoundSimpleMessage.UpdateNotification
                ⟨device_id, true, build_state current1⟩],
             [new_brightness]⟩
  | TransportEvent.Message (DeviceBoundSimpleMessage.StateQuery qid) =>
      if qid ≠ device_id then ⟨current, [], []⟩
      else
        ⟨current,
         [ServerBoundSimpleMessage.UpdateNotification
            ⟨qid, true, build_state current⟩], []⟩
  | TransportEvent.Message DeviceBoundSimpleMessage.Other => ⟨current, [], []⟩

/-- Run of the `app_task` loop over a finite list of transport events, each
paired with the success value of the hardware write it may issue.  The state
starts from `current` and is threaded through; per src/light.rs the state is
created once before the loop (`BRIGHTNESS_PROPS.to_state(0)` at boot) and is
never reset by any event. -/
def app_run (device_id : String) (current : NumericState) :
    List (TransportEvent × Bool) → NumericState × List ServerBoundSimpleMessage × List Nat
  | [] => (current, [], [])
  | (ev, hw) :: rest =>
      let o := app_step device_id hw current ev
      let r := app_run device_id o.state rest
      (r.1, o.sent ++ r.2.1, o.duty_writes ++ r.2.2)

/-! The monolithic transport loop of src/transport.rs.  This revision uses an
older inbound schema: the update command carries a `change_to :
DeviceStateUpdate` with optional led-strip fields instead of an
`AttributeUpdate`. -/

/-- Optional led-strip update fields `{power: Option bool,
brightness: Option u8}` (the `new_state` matched in `update_state`). -/
structure LedStripUpdate where
  power : Option Bool
  brightness : Option Nat
deriving DecidableEq

/-- Device-state update carried by the monolithic update command:
`LedStrip(new_state) | other`. -/
inductive DeviceStateUpdate
  | LedStrip : LedStripUpdate → DeviceStateUpdate
  | Other : DeviceStateUpdate
deriving DecidableEq

/-- Monolithic inbound update command `{device_id, change_to}`. -/
structure UpdateCommandMono where
  device_id : String
  change_to : DeviceStateUpdate
deriving DecidableEq

/-- Device-bound message consumed by the monolithic dispatcher in
src/transport.rs `handle_message`. -/
inductive DeviceBoundMessageMono
  | UpdateCommand : UpdateCommandMono → DeviceBoundMessageMono
  | StateQuery : String → DeviceBoundMessageMono
  | Other : DeviceBoundMessageMono
deriving DecidableEq

/-- Rust `Option::min` at `Option<u8>` under the derived order where `None`
is below every `Some` (used at src/transport.rs line 144). -/
def option_min : Option Nat → Option Nat → Option Nat
  | none, _ => none
  | some _, none => none
  | some x, some y => some (Nat.min x y)

/-- Function `update_state` from src/transport.rs lines 132-158.  Returns the new
`current_brightness` together with the duty values written to the PWM
channel; a non-led-strip update is a hard error (`bail!`).  A failed
`set_duty` is logged and leaves `current_brightness` unchanged. -/
def update_state (hw_ok : Bool) (requested_state : DeviceStateUpdate)
    (current_brightness : Nat) : Except String (Nat × List Nat) :=
  match requested_state with
  | DeviceStateUpdate.Other =>
      Except.error "Requested state is not a dimmable light state!"
  | DeviceStateUpdate.LedStrip new_state =>
      let new_brightness :=
        if new_state.power = some false then some 0
        else option_min new_state.brightness (some 100)
      match new_brightness with
      | some brightness =>
          if hw_ok then Except.ok (brightness, [brightness])
          else Except.ok (current_brightness, [brightness])
      | none => Except.ok (current_brightness, [])

/-- Function `query_state` from src/transport.rs lines 160-165. -/
def query_state (current_brightness : Nat) : DeviceState :=
  DeviceState.LedStrip ⟨decide (current_brightness > 0), current_brightness⟩

/-- The dispatch part of src/transport.rs `handle_message` (lines 104-129),
run after the frame has been read, verified and decoded.  Faithful to the
source, `current_brightness` is a fresh local initialised to `0` for every
message (line 104), so no state survives between messages.  Returns the
messages sent back on the socket and the duty writes, or the error that
unwinds the connection. -/
def mono_dispatch (device_id : String) (hw_ok : Bool) :
    DeviceBoundMessageMono → Except String (List ServerBoundSimpleMessage × List Nat)
  | DeviceBoundMessageMono.UpdateCommand update =>
      let current_brightness : Nat := 0
      if update.device_id ≠ device_id then
        Except.error "Update notification does not match this device id!"
      else
        match update_state hw_ok update.change_to current_brightness with
        | Except.error e => Except.error e
        | Except.ok (cb, writes) =>
            Except.ok
              ([ServerBoundSimpleMessage.UpdateNotification
                  ⟨device_id, true, query_state cb⟩], writes)
  | DeviceBoundMessageMono.StateQuery qid =>
      let current_brightness : Nat := 0
      if qid ≠ device_id then
        Except.error "State query notification does not match this device id!"
      else
        Except.ok
          ([ServerBoundSimpleMessage.UpdateNotification
              ⟨device_id, true, query_state current_brightness⟩], [])
  | DeviceBoundMessageMono.Other => Except.ok ([], [])

/-! Framing, stream reads and the receive loop of src/transport.rs.  The TCP
stream is modelled as the finite list of byte chunks the connection delivers
before it is closed (end of list = connection closed / no further data). -/

/-- Fixed ECDSA signature length (`SIGNATURE_LEN` of the shared protocol;
p256 raw signatures are 64 bytes). -/
def SIGNATURE_LEN : Nat := 64

/-- Big-endian 4-byte encoding of a `u32` value (`to_be_bytes`). -/
def u32_be (n : Nat) : List Nat :=
  [n / 2 ^ 24 % 256, n / 2 ^ 16 % 256, n / 2 ^ 8 % 256, n % 256]

/-- Rust `u32::from_be_bytes` over a 4-byte list. -/
def u32_from_be (bs : List Nat) : Nat :=
  bs.foldl (fun acc b => acc * 256 + b % 256) 0

/-- Total number of bytes the stream still holds. -/
def total_bytes (stream : List (List Nat)) : Nat :=
  (stream.map List.length).sum

/-- One `socket.read` into a buffer of size `k`: delivers bytes from the
first available chunk, at most `k` of them (a longer chunk stays buffered);
an exhausted stream (closed connection) delivers 0 bytes. -/
def read_once (k : Nat) (stream : List (List Nat)) : List Nat × List (List Nat) :=
  match stream with
  | [] => ([], [])
  | c :: s => if c.length ≤ k then (c, s) else (c.take k, c.drop k :: s)

/-- Modelled `read_exact` into a buffer of `n` bytes: consumes chunks until the buffer
is full.  If the stream closes first (fewer than `n` bytes in total), the
read fails (`none`) — a partial buffer is never returned. -/
def read_exact (n : Nat) : List (List Nat) → Option (List Nat × List (List Nat))
  | [] => if n = 0 then some ([], []) else none
  | c :: s =>
      if n ≤ c.length then some (c.take n, c.drop n :: s)
      else
        match read_exact (n - c.length) s with
        | none => none
        | some (bs, rest) => some (c ++ bs, rest)

/-- Frame bytes produced by src/transport.rs `send_message` (lines 196-217):
4-byte big-endian total length `sig_len + payload_len`, then the signature,
then the payload. -/
def send_message_bytes (sig payload : List Nat) : List Nat :=
  u32_be (sig.length + payload.length) ++ sig ++ payload

/-- Frame bytes produced by src/transport.rs `send_identify_message` (lines
181-194): `data.splice(0..0, data.len().to_be_bytes())` prepends the 4-byte
big-endian payload length (usize is 32-bit on this target) to the serialized
payload.  No signature is computed or written. -/
def send_identify_bytes (payload : List Nat) : List Nat :=
  u32_be payload.length ++ payload

/-- Observable actions of the transport loop, in program order. -/
inductive Action
  | read_len : Action
  | read_body : Nat → Action
  | verified : Bool → Action
  | deserialize : Action
  | dispatch : Action
  | sent : ServerBoundSimpleMessage → Action
  | wrote_bytes : List Nat → Action
deriving DecidableEq

deriving instance DecidableEq for Except

/-- Result of one `handle_message` call: the dispatch outcome (or the error
that unwinds the connection), the unread remainder of the stream, and the
trace of actions performed. -/
structure HandleResult where
  result : Except String (List ServerBoundSimpleMessage × List Nat)
  rest : List (List Nat)
  trace : List Action
deriving DecidableEq

/-- Function `handle_message` from src/transport.rs lines 79-130: `read_exact` the
`message_len` body bytes, split off the leading `SIGNATURE_LEN` signature,
verify the remainder against it, only then deserialize and dispatch.
`verify` models `ecdsa_verify` (`none` = the crypto call itself failed),
`decode` models `serde_json::from_slice`. -/
def handle_message (device_id : String)
    (verify : List Nat → List Nat → Option Bool)
    (decode : List Nat → Option DeviceBoundMessageMono)
    (hw_ok : Bool) (message_len : Nat) (stream : List (List Nat)) : HandleResult :=
  match read_exact message_len stream with
  | none => ⟨Except.error "data recv", stream, []⟩
  | some (buf, rest) =>
      if SIGNATURE_LEN ≤ buf.length then
        let sig := buf.take SIGNATURE_LEN
        let data := buf.drop SIGNATURE_LEN
        match verify data sig with
        | none =>
            ⟨Except.error "ecdsa verification failed", rest,
             [Action.read_body buf.length]⟩
        | some false =>
            ⟨Except.error "signature does not match!", rest,
             [Action.read_body buf.length, Action.verified false]⟩
        | some true =>
            match decode data with
            | none =>
                ⟨Except.error "serde_json deserialization failed", rest,
                 [Action.read_body buf.length, Action.verified true,
                  Action.deserialize]⟩
            | some message =>
                ⟨mono_dispatch device_id hw_ok message, rest,
                 [Action.read_body buf.length, Action.verified true,
                  Action.deserialize, Action.dispatch]⟩
      else
        ⟨Except.error "message is not long enough for signature", rest,
         [Action.read_body buf.length]⟩

/-- The length-prefix read at src/transport.rs lines 57-66: one `socket.read`
into a 4-byte buffer; any result other than exactly 4 bytes (short read or
closed stream) is the bail `Length delimiter is not a u32!`. -/
def read_length (stream : List (List Nat)) : Except String (Nat × List (List Nat)) :=
  let r := read_once 4 stream
  if r.1.length ≠ 4 then Except.error "Length delimiter is not a u32!"
  else Except.ok (u32_from_be r.1, r.2)

/-- The receive loop of src/transport.rs `open_connection` (lines 57-75):
read a length prefix, handle one message, and repeat until an error unwinds.
`fuel` bounds the number of iterations modelled; running out of fuel ends the
trace without an error (the loop is still running). -/
def receive_loop (device_id : String)
    (verify : List Nat → List Nat → Option Bool)
    (decode : List Nat → Option DeviceBoundMessageMono)
    (hw_ok : Bool) : Nat → List (List Nat) → Except String Unit × List Action
  | 0, _ => (Except.ok (), [])
  | fuel + 1, stream =>
      match read_length stream with
      | Except.error e => (Except.error e, [Action.read_len])
      | Except.ok (len, rest) =>
          let h := handle_message device_id verify decode hw_ok len rest
          match h.result with
          | Except.error e => (Except.error e, Action.read_len :: h.trace)
          | Except.ok (sends, _) =>
              let r := receive_loop device_id verify decode hw_ok fuel h.rest
              (r.1, (Action.read_len :: h.trace ++ sends.map Action.sent) ++ r.2)

/-- Function `open_connection` from src/transport.rs lines 37-76, after a successful
`connect`: send the identify frame (unacknowledged), then enter the receive
loop.  `encode` models `serde_json::to_vec`. -/
def open_connection (device_id : String)
    (encode : ServerBoundSimpleMessage → List Nat)
    (verify : List Nat → List Nat → Option Bool)
    (decode : List Nat → Option DeviceBoundMessageMono)
    (hw_ok : Bool) (fuel : Nat) (stream : List (List Nat)) :
    Except String Unit × List Action :=
  let idframe := send_identify_bytes (encode (ServerBoundSimpleMessage.Identify device_id))
  let r := receive_loop device_id verify decode hw_ok fuel stream
  (r.1,
   Action.wrote_bytes idframe ::
   Action.sent (ServerBoundSimpleMessage.Identify device_id) :: r.2)

/-- Start time of the k-th connection attempt (0-indexed) made by
src/transport.rs `connection_task` (lines 21-35): every loop iteration waits
a fixed 5 seconds, then attempts; `dur k` is the time the k-th attempt's
session lasts before `open_connection` returns (0 for an immediate connect
failure).  The loop body is unconditional: no attempt limit, no growing
backoff, no exit path. -/
def attempt_time (dur : Nat → Nat) : Nat → Nat
  | 0 => 5
  | k + 1 => attempt_time dur k + dur k + 5

/-- The attempt times of the first `n` iterations of `connection_task`. -/
def connection_attempts (dur : Nat → Nat) (n : Nat) : List Nat :=
  (List.range n).map (attempt_time dur)

/-- Common projection of the two reported device-state shapes to
`(power, brightness)`, for comparing the two dispatcher variants. -/
def state_repr : DeviceState → Bool × Nat
  | DeviceState.DimmableLight s => (decide (s.power = SwitchPower.On), s.brightness.value)
  | DeviceState.LedStrip s => (s.power, s.brightness)

/-- Scanner for the temporal discipline of the receive path: `true` iff every
`deserialize` action in the trace is immediately preceded by a successful
`verified true` action.  The first argument is the previous action seen. -/
def deser_verified : Option Action → List Action → Bool
  | _, [] => true
  | some (Action.verified true), Action.deserialize :: t =>
      deser_verified (some Action.deserialize) t
  | _, Action.deserialize :: _ => false
  | _, a :: t => deser_verified (some a) t

/-! Claim theorems. -/

/-- C1 counterexample: the monolithic dispatcher (src/transport.rs
`handle_message`) treats an inbound StateQuery whose device_id differs from
the local id as an error (`bail!`), which unwinds and tears down the
connection — contradicting the claim that a mismatch is never treated as an
error. -/
theorem c1_counterexample :
    mono_dispatch "light-1" true (DeviceBoundMessageMono.StateQuery "light-2") =
      Except.error "State query notification does not match this device id!" := by
  decide

/-- C1 (amended): for every inbound UpdateCommand or StateQuery whose
device_id differs from the local id, the decoupled dispatcher (`app_task`)
performs no state mutation, no hardware write and sends no outbound message,
and does not treat the message as an error (the loop simply continues); the
monolithic dispatcher (`handle_message`) likewise performs no state mutation
and sends nothing, but returns an error, and any dispatch error makes the
receive loop stop with that error (the connection is torn down). -/
theorem c1_mismatched_id_dispatch :
    (∀ (id : String) (hw : Bool) (cur : NumericState) (u : UpdateCommand),
        u.device_id ≠ id →
        app_step id hw cur
            (TransportEvent.Message (DeviceBoundSimpleMessage.UpdateCommand u)) =
          ⟨cur, [], []⟩) ∧
    (∀ (id : String) (hw : Bool) (cur : NumericState) (q : String),
        q ≠ id →
        app_step id hw cur
            (TransportEvent.Message (DeviceBoundSimpleMessage.StateQuery q)) =
          ⟨cur, [], []⟩) ∧
    (∀ (id : String) (hw : Bool) (u : UpdateCommandMono),
        u.device_id ≠ id →
        mono_dispatch id hw (DeviceBoundMessageMono.UpdateCommand u) =
          Except.error "Update notification does not match this device id!") ∧
    (∀ (id : String) (hw : Bool) (q : String),
        q ≠ id →
        mono_dispatch id hw (DeviceBoundMessageMono.StateQuery q) =
          Except.error "State query notification does not match this device id!") ∧
    (∀ (id : String) (verify : List Nat → List Nat → Option Bool)
        (decode : List Nat → Option DeviceBoundMessageMono) (hw : Bool)
        (fuel : Nat) (stream : List (List Nat)) (len : Nat)
        (rest : List (List Nat)) (e : String),
        read_length stream = Except.ok (len, rest) →
        (handle_message id verify decode hw len rest).result = Except.error e →
        (receive_loop id verify decode hw (fuel + 1) stream).1 = Except.error e) := by
  refine ⟨?_, ?_, ?_, ?_, ?_⟩
  · intro id hw cur u h
    simp [app_step, h]
  · intro id hw cur q h
    simp [app_step, h]
  · intro id hw u h
    simp [mono_dispatch, h]
  · intro id hw q h
    simp [mono_dispatch, h]
  · intro id verify decode hw fuel stream len rest e hlen hres
    simp [receive_loop, hlen, hres]

/-- C1 witness: the amended theorem evaluated at concrete mismatched
messages against local id `light-1`. -/
theorem c1_mismatched_id_dispatch_witness :
    app_step "light-1" true ⟨40⟩
        (TransportEvent.Message (DeviceBoundSimpleMessage.StateQuery "light-2")) =
      ⟨⟨40⟩, [], []⟩ ∧
    mono_dispatch "light-1" true
        (DeviceBoundMessageMono.UpdateCommand ⟨"light-2", DeviceStateUpdate.Other⟩) =
      Except.error "Update notification does not match this device id!" :=
  ⟨c1_mismatched_id_dispatch.2.1 "light-1" true ⟨40⟩ "light-2" (by decide),
   c1_mismatched_id_dispatch.2.2.1 "light-1" true ⟨"light-2", DeviceStateUpdate.Other⟩
     (by decide)⟩

/-- C2: evaluation of the monolithic dispatcher at the failing input.  The
first message is a successful UpdateCommand installing brightness 70 via a
successful hardware write (and its own reply correctly reports 70); the next
message, a StateQuery for the same device, is answered with brightness 0 and
power off, because src/transport.rs line 104 re-creates
`current_brightness = 0` for every message — the installed state does not
survive to the next message, let alone across reconnects. -/
theorem c2_monolithic_state_not_preserved :
    mono_dispatch "light-1" true
        (DeviceBoundMessageMono.UpdateCommand
          ⟨"light-1", DeviceStateUpdate.LedStrip ⟨none, some 70⟩⟩) =
      Except.ok
        ([ServerBoundSimpleMessage.UpdateNotification
            ⟨"light-1", true, DeviceState.LedStrip ⟨true, 70⟩⟩], [70]) ∧
    mono_dispatch "light-1" true (DeviceBoundMessageMono.StateQuery "light-1") =
      Except.ok
        ([ServerBoundSimpleMessage.UpdateNotification
            ⟨"light-1", true, DeviceState.LedStrip ⟨false, 0⟩⟩], []) := by
  constructor <;> decide

/-- C4 counterexample: for the same Power(true) command from prior
brightness 0, the decoupled dispatcher sets the deterministic non-zero value
1, while the monolithic dispatcher performs no hardware write at all and
leaves brightness 0 — so there is no single non-zero policy value shared by
both dispatcher variants. -/
theorem c4_counterexample :
    (app_step "light-1" true ⟨0⟩
        (TransportEvent.Message
          (DeviceBoundSimpleMessage.UpdateCommand
            ⟨"light-1", AttributeUpdate.Power SwitchPower.On⟩))).state.value = 1 ∧
    update_state true (DeviceStateUpdate.LedStrip ⟨some true, none⟩) 0 =
      Except.ok (0, []) ∧
    (1 : Nat) ≠ 0 := by
  refine ⟨by decide, by decide, by decide⟩

/-- C4 (amended): in the decoupled dispatcher a successful Power(true)
UpdateCommand always sets brightness to the fixed value 1 — non-zero, the
same in every execution, for any prior state — and reports exactly that
state; the monolithic dispatcher implements no Power(true) policy: a
power-on update with no brightness performs no hardware write and leaves the
brightness unchanged, whether or not the hardware would succeed. -/
theorem c4_power_on_policy :
    (∀ (id : String) (cur : NumericState),
        app_step id true cur
            (TransportEvent.Message
              (DeviceBoundSimpleMessage.UpdateCommand
                ⟨id, AttributeUpdate.Power SwitchPower.On⟩)) =
          ⟨⟨1⟩,
           [ServerBoundSimpleMessage.UpdateNotification
              ⟨id, true, DeviceState.DimmableLight ⟨SwitchPower.On, ⟨1⟩⟩⟩],
           [1]⟩) ∧
    (∀ (hw : Bool) (cb : Nat),
        update_state hw (DeviceStateUpdate.LedStrip ⟨some true, none⟩) cb =
          Except.ok (cb, [])) := by
  constructor
  · intro id cur
    simp [app_step, target_brightness, build_state]
  · intro hw cb
    simp [update_state, option_min]

/-- C5: for every brightness value b ≤ 100, a Brightness(b) UpdateCommand
with matching id and a successful hardware write leaves the stored state
with brightness b and power on exactly when b > 0, and the emitted
UpdateNotification reports exactly that state — in both dispatcher
variants. -/
theorem c5_brightness_command :
    ∀ (b : Nat), b ≤ 100 →
      (∀ (id : String) (cur : NumericState),
        app_step id true cur
            (TransportEvent.Message
              (DeviceBoundSimpleMessage.UpdateCommand
                ⟨id, AttributeUpdate.Brightness b⟩)) =
          ⟨⟨b⟩,
           [ServerBoundSimpleMessage.UpdateNotification
              ⟨id, true,
               DeviceState.DimmableLight
                 ⟨if b > 0 then SwitchPower.On else SwitchPower.Off, ⟨b⟩⟩⟩],
           [b]⟩) ∧
      (∀ (id : String),
        mono_dispatch id true
            (DeviceBoundMessageMono.UpdateCommand
              ⟨id, DeviceStateUpdate.LedStrip ⟨none, some b⟩⟩) =
          Except.ok
            ([ServerBoundSimpleMessage.UpdateNotification
                ⟨id, true, DeviceState.LedStrip ⟨decide (b > 0), b⟩⟩], [b])) := by
  intro b hb
  constructor
  · intro id cur
    have happ : apply_to BRIGHTNESS_PROPS b cur = b := by
      simp [apply_to, BRIGHTNESS_PROPS]
      omega
    simp [app_step, target_brightness, happ, build_state]
  · intro id
    simp [mono_dispatch, update_state, option_min, query_state, Nat.min_eq_left hb]

/-- C5 witness: the spec scenario — device `light-1` at brightness 40
receives Brightness(70) and the hardware write succeeds; the state becomes
70/on and the notification reports exactly that. -/
theorem c5_brightness_command_witness :
    app_step "light-1" true ⟨40⟩
        (TransportEvent.Message
          (DeviceBoundSimpleMessage.UpdateCommand
            ⟨"light-1", AttributeUpdate.Brightness 70⟩)) =
      ⟨⟨70⟩,
       [ServerBoundSimpleMessage.UpdateNotification
          ⟨"light-1", true, DeviceState.DimmableLight ⟨SwitchPower.On, ⟨70⟩⟩⟩],
       [70]⟩ := by
  simpa using (c5_brightness_command 70 (by decide)).1 "light-1" ⟨40⟩

/-- C6: when the hardware write fails, the stored state is left unchanged in
both variants (no optimistic update), the failure is not escalated (the
decoupled step completes normally and `update_state` returns Ok), and an
UpdateNotification carrying the unchanged current state is still emitted. -/
theorem c6_hw_failure_keeps_state :
    (∀ (id : String) (cur : NumericState) (upd : AttributeUpdate) (nb : Nat),
        target_brightness cur upd = some nb →
        app_step id false cur
            (TransportEvent.Message
              (DeviceBoundSimpleMessage.UpdateCommand ⟨id, upd⟩)) =
          ⟨cur,
           [ServerBoundSimpleMessage.UpdateNotification
              ⟨id, true, build_state cur⟩],
           [nb]⟩) ∧
    (∀ (b cb : Nat),
        update_state false (DeviceStateUpdate.LedStrip ⟨none, some b⟩) cb =
          Except.ok (cb, [Nat.min b 100])) ∧
    (∀ (id : String) (b : Nat),
        mono_dispatch id false
            (DeviceBoundMessageMono.UpdateCommand
              ⟨id, DeviceStateUpdate.LedStrip ⟨none, some b⟩⟩) =
          Except.ok
            ([ServerBoundSimpleMessage.UpdateNotification
                ⟨id, true, DeviceState.LedStrip ⟨false, 0⟩⟩],
             [Nat.min b 100])) := by
  refine ⟨?_, ?_, ?_⟩
  · intro id cur upd nb hupd
    simp [app_step, hupd]
  · intro b cb
    simp [update_state, option_min]
  · intro id b
    simp [mono_dispatch, update_state, option_min, query_state]

/-- C6 witness: brightness 70 requested at state 40, hardware write fails;
the state stays 40 and the notification reports 40/on. -/
theorem c6_hw_failure_keeps_state_witness :
    app_step "light-1" false ⟨40⟩
        (TransportEvent.Message
          (DeviceBoundSimpleMessage.UpdateCommand
            ⟨"light-1", AttributeUpdate.Brightness 70⟩)) =
      ⟨⟨40⟩,
       [ServerBoundSimpleMessage.UpdateNotification
          ⟨"light-1", true, build_state ⟨40⟩⟩],
       [70]⟩ :=
  c6_hw_failure_keeps_state.1 "light-1" ⟨40⟩ (AttributeUpdate.Brightness 70) 70 (by decide)

/-- C7: in the receive path, (i) every `deserialize` action in a
`handle_message` trace is immediately preceded by a successful verification;
(ii) a failed verification yields the `signature does not match!` error with
the frame discarded — no deserialize, no dispatch, nothing sent and no
hardware write; (iii) an error from `handle_message` stops the receive loop
with that error, so the connection is torn down rather than the frame being
skipped. -/
theorem c7_verify_before_parse :
    (∀ (id : String) (verify : List Nat → List Nat → Option Bool)
        (decode : List Nat → Option DeviceBoundMessageMono) (hw : Bool)
        (len : Nat) (stream : List (List Nat)),
        deser_verified none (handle_message id verify decode hw len stream).trace = true) ∧
    (∀ (id : String) (verify : List Nat → List Nat → Option Bool)
        (decode : List Nat → Option DeviceBoundMessageMono) (hw : Bool)
        (len : Nat) (stream : List (List Nat)) (buf : List Nat)
        (rest : List (List Nat)),
        read_exact len stream = some (buf, rest) →
        SIGNATURE_LEN ≤ buf.length →
        verify (buf.drop SIGNATURE_LEN) (buf.take SIGNATURE_LEN) = some false →
        handle_message id verify decode hw len stream =
          ⟨Except.error "signature does not match!", rest,
           [Action.read_body buf.length, Action.verified false]⟩) ∧
    (∀ (id : String) (verify : List Nat → List Nat → Option Bool)
        (decode : List Nat → Option DeviceBoundMessageMono) (hw : Bool)
        (fuel : Nat) (stream : List (List Nat)) (len : Nat)
        (rest : List (List Nat)) (e : String),
        read_length stream = Except.ok (len, rest) →
        (handle_message id verify decode hw len rest).result = Except.error e →
        receive_loop id verify decode hw (fuel + 1) stream =
          (Except.error e,
           Action.read_len :: (handle_message id verify decode hw len rest).trace)) := by
  refine ⟨?_, ?_, ?_⟩
  · intro id verify decode hw len stream
    unfold handle_message
    rcases read_exact len stream with _ | ⟨buf, rest⟩
    · rfl
    · by_cases hsig : SIGNATURE_LEN ≤ buf.length
      · simp only [hsig, if_true]
        rcases verify (buf.drop SIGNATURE_LEN) (buf.take SIGNATURE_LEN) with _ | b
        · rfl
        · cases b
          · rfl
          · rcases decode (buf.drop SIGNATURE_LEN) with _ | m
            · rfl
            · rfl
      · simp only [hsig, if_false]
        rfl
  · intro id verify decode hw len stream buf rest hread hsig hverify
    unfold handle_message
    rw [hread]
    simp only [hsig, if_true, hverify]
  · intro id verify decode hw fuel stream len rest e hlen hres
    simp [receive_loop, hlen, hres]

/-- C7 witness: a one-frame stream whose signature fails verification; the
handler discards the frame with the authentication error, without
deserializing, and the receive loop stops with that error. -/
theorem c7_verify_before_parse_witness :
    handle_message "light-1" (fun _ _ => some false) (fun _ => none) true 65
        [List.replicate 65 7] =
      ⟨Except.error "signature does not match!", [[]],
       [Action.read_body 65, Action.verified false]⟩ ∧
    receive_loop "light-1" (fun _ _ => some false) (fun _ => none) true 3
        [[0, 0, 0, 65], List.replicate 65 7] =
      (Except.error "signature does not match!",
       [Action.read_len, Action.read_body 65, Action.verified false]) := by
  constructor
  · have h := c7_verify_before_parse.2.1 "light-1" (fun _ _ => some false)
      (fun _ => none) true 65 [List.replicate 65 7]
      (List.replicate 65 7) [[]] (by decide) (by decide) rfl
    simpa using h
  · have h := c7_verify_before_parse.2.2 "light-1" (fun _ _ => some false)
      (fun _ => none) true 2 [[0, 0, 0, 65], List.replicate 65 7] 65
      [List.replicate 65 7] "signature does not match!" (by decide) (by decide)
    simpa using h

/-- C8 helper: a successful `read_exact` returns exactly the requested
number of bytes. -/
theorem read_exact_length (n : Nat) (s : List (List Nat)) (bs : List Nat)
    (rest : List (List Nat)) (h : read_exact n s = some (bs, rest)) :
    bs.length = n := by
  induction s generalizing n bs rest with
  | nil =>
      unfold read_exact at h
      by_cases h0 : n = 0
      · simp [h0] at h
        simp [← h.1, h0]
      · simp [h0] at h
  | cons c s ih =>
      unfold read_exact at h
      by_cases hc : n ≤ c.length
      · simp [hc] at h
        rw [← h.1, List.length_take]
        omega
      · simp [hc] at h
        rcases hrec : read_exact (n - c.length) s with _ | ⟨bs1, rest1⟩
        · rw [hrec] at h
          simp at h
        · rw [hrec] at h
          simp at h
          have := ih (n - c.length) bs1 rest1 hrec
          rw [← h.1, List.length_append, this]
          omega

/-- C8 helper: when the stream holds fewer bytes than requested (the
connection closed before the full frame arrived), `read_exact` fails rather
than returning a partial buffer. -/
theorem read_exact_insufficient (n : Nat) (s : List (List Nat))
    (h : total_bytes s < n) : read_exact n s = none := by
  induction s generalizing n with
  | nil =>
      unfold read_exact
      simp [total_bytes] at h
      simp [Nat.pos_iff_ne_zero.mp h]
  | cons c s ih =>
      unfold read_exact
      simp [total_bytes] at h ih
      have hc : ¬ n ≤ c.length := by omega
      simp [hc]
      rw [ih (n - c.length) (by omega)]

/-- C8 helper: when enough bytes are available, `read_exact` succeeds and
returns exactly the requested number of bytes. -/
theorem read_exact_sufficient (n : Nat) (s : List (List Nat))
    (h : n ≤ total_bytes s) :
    ∃ bs rest, read_exact n s = some (bs, rest) ∧ bs.length = n := by
  induction s generalizing n with
  | nil =>
      simp [total_bytes] at h
      refine ⟨[], [], ?_, by simp [h]⟩
      simp [read_exact, h]
  | cons c s ih =>
      unfold read_exact
      by_cases hc : n ≤ c.length
      · refine ⟨c.take n, c.drop n :: s, by simp [hc], ?_⟩
        rw [List.length_take]
        omega
      · simp [total_bytes] at h
        obtain ⟨bs1, rest1, hrec, hlen⟩ :=
          ih (n - c.length) (by simp [total_bytes]; omega)
        refine ⟨c ++ bs1, rest1, ?_, ?_⟩
        · simp [hc, hrec]
        · rw [List.length_append, hlen]
          omega

/-- C8: (i) a successful body read always returns exactly the declared
number of bytes; (ii) a stream that closes with fewer bytes than the
declared frame length makes `read_exact` fail, and `handle_message` then
errors without dispatching anything (empty trace, no sends); (iii) when the
full declared length is available the read succeeds with exactly that many
bytes; (iv) the initial 4-byte length read fails as a protocol error on a
short first read or a closed stream rather than anything being
dispatched. -/
theorem c8_partial_frames :
    (∀ (n : Nat) (s : List (List Nat)) (bs : List Nat) (rest : List (List Nat)),
        read_exact n s = some (bs, rest) → bs.length = n) ∧
    (∀ (id : String) (verify : List Nat → List Nat → Option Bool)
        (decode : List Nat → Option DeviceBoundMessageMono) (hw : Bool)
        (len : Nat) (stream : List (List Nat)),
        total_bytes stream < len →
        handle_message id verify decode hw len stream =
          ⟨Except.error "data recv", stream, []⟩) ∧
    (∀ (n : Nat) (s : List (List Nat)),
        n ≤ total_bytes s →
        ∃ bs rest, read_exact n s = some (bs, rest) ∧ bs.length = n) ∧
    (∀ (c : List Nat) (s : List (List Nat)),
        c.length < 4 →
        read_length (c :: s) = Except.error "Length delimiter is not a u32!") ∧
    read_length [] = Except.error "Length delimiter is not a u32!" := by
  refine ⟨read_exact_length, ?_, read_exact_sufficient, ?_, by decide⟩
  · intro id verify decode hw len stream hlt
    unfold handle_message
    rw [read_exact_insufficient len stream hlt]
  · intro c s hc
    have h4 : c.length ≤ 4 := by omega
    have hne : c.length ≠ 4 := by omega
    simp [read_length, read_once, h4, hne]

/-- C8 witness: a frame declaring 65 bytes whose stream delivers only 10
bytes before closing is never dispatched — the read fails and the handler
errors with nothing dispatched; a 2-byte first read of the length prefix is
the protocol error; and once all 65 bytes are delivered the read succeeds
with exactly 65 bytes. -/
theorem c8_partial_frames_witness :
    handle_message "light-1" (fun _ _ => some true) (fun _ => none) true 65
        [[1, 2, 3], List.replicate 7 0] =
      ⟨Except.error "data recv", [[1, 2, 3], List.replicate 7 0], []⟩ ∧
    read_length [[0, 65]] = Except.error "Length delimiter is not a u32!" ∧
    ∃ bs rest, read_exact 65 [List.replicate 30 1, List.replicate 35 2] =
      some (bs, rest) ∧ bs.length = 65 :=
  ⟨c8_partial_frames.2.1 "light-1" (fun _ _ => some true) (fun _ => none) true 65
      [[1, 2, 3], List.replicate 7 0] (by decide),
   c8_partial_frames.2.2.2.1 [0, 65] [] (by decide),
   c8_partial_frames.2.2.1 65 [List.replicate 30 1, List.replicate 35 2] (by decide)⟩

/-- C9: the connection manager of src/transport.rs `connection_task` retries
unconditionally: for every pattern of session durations (including every
pattern of immediate connect failures), the first n loop iterations make
exactly n connection attempts — in particular N+1 attempts after N
consecutive failures — consecutive attempts are separated by at least 5
seconds, and every attempt index has a defined attempt time, i.e. the loop
never stops retrying. -/
theorem c9_reconnect_forever :
    (∀ (dur : Nat → Nat) (n : Nat), (connection_attempts dur n).length = n) ∧
    (∀ (dur : Nat → Nat) (k : Nat),
        attempt_time dur k + 5 ≤ attempt_time dur (k + 1)) ∧
    (∀ (dur : Nat → Nat) (N : Nat),
        (connection_attempts dur (N + 1)).length = N + 1) ∧
    (∀ (dur : Nat → Nat) (k : Nat), 5 ≤ attempt_time dur k) := by
  refine ⟨?_, ?_, ?_, ?_⟩
  · intro dur n
    simp [connection_attempts]
  · intro dur k
    simp [attempt_time]
  · intro dur N
    simp [connection_attempts]
  · intro dur k
    induction k with
    | zero => simp [attempt_time]
    | succ k ih =>
        simp only [attempt_time]
        omega

/-- C3 helper: a successful dispatch never sends an Identify message — the
monolithic dispatcher only ever replies with UpdateNotifications. -/
theorem mono_dispatch_no_identify (id : String) (hw : Bool)
    (m : DeviceBoundMessageMono) (sends : List ServerBoundSimpleMessage)
    (w : List Nat) (h : mono_dispatch id hw m = Except.ok (sends, w)) (x : String) :
    ServerBoundSimpleMessage.Identify x ∉ sends := by
  cases m with
  | UpdateCommand u =>
      unfold mono_dispatch at h
      by_cases hid : u.device_id ≠ id
      · simp [hid] at h
      · simp only [hid, if_false] at h
        rcases hus : update_state hw u.change_to 0 with e | ⟨cb, ws⟩ <;> rw [hus] at h
        · simp at h
        · simp at h
          rw [← h.1]
          simp
  | StateQuery q =>
      unfold mono_dispatch at h
      by_cases hid : q ≠ id
      · simp [hid] at h
      · simp only [hid, if_false] at h
        simp at h
        rw [← h.1]
        simp
  | Other =>
      unfold mono_dispatch at h
      simp at h
      rw [h.1]
      simp

/-- C3 helper: the trace of a single `handle_message` call contains no send
action (sends are recorded by the receive loop, from the dispatch result). -/
theorem handle_message_trace_no_sent (id : String)
    (verify : List Nat → List Nat → Option Bool)
    (decode : List Nat → Option DeviceBoundMessageMono) (hw : Bool)
    (len : Nat) (stream : List (List Nat)) (m : ServerBoundSimpleMessage) :
    Action.sent m ∉ (handle_message id verify decode hw len stream).trace := by
  unfold handle_message
  rcases read_exact len stream with _ | ⟨buf, rest⟩
  · simp
  · by_cases hsig : SIGNATURE_LEN ≤ buf.length
    · simp only [hsig, if_true]
      rcases verify (buf.drop SIGNATURE_LEN) (buf.take SIGNATURE_LEN) with _ | b
      · simp
      · cases b
        · simp
        · rcases decode (buf.drop SIGNATURE_LEN) with _ | msg <;> simp
    · simp [hsig]

/-- C3 helper: a `handle_message` call that returns Ok got its sends from
`mono_dispatch`, so they contain no Identify message. -/
theorem handle_message_ok_no_identify (id : String)
    (verify : List Nat → List Nat → Option Bool)
    (decode : List Nat → Option DeviceBoundMessageMono) (hw : Bool)
    (len : Nat) (stream : List (List Nat)) (sends : List ServerBoundSimpleMessage)
    (w : List Nat)
    (h : (handle_message id verify decode hw len stream).result = Except.ok (sends, w))
    (x : String) : ServerBoundSimpleMessage.Identify x ∉ sends := by
  unfold handle_message at h
  rcases hre : read_exact len stream with _ | ⟨buf, rest⟩ <;> rw [hre] at h
  · simp at h
  · by_cases hsig : SIGNATURE_LEN ≤ buf.length
    · simp only [hsig, if_true] at h
      rcases hv : verify (buf.drop SIGNATURE_LEN) (buf.take SIGNATURE_LEN) with _ | b <;>
        rw [hv] at h
      · simp at h
      · cases b
        · simp at h
        · rcases hd : decode (buf.drop SIGNATURE_LEN) with _ | msg <;> rw [hd] at h
          · simp at h
          · exact mono_dispatch_no_identify id hw msg sends w h x
    · simp [hsig] at h

/-- C3 helper: the receive loop never sends an Identify message; the only
Identify of a session is the one sent by `open_connection` before the loop. -/
theorem receive_loop_no_identify (id : String)
    (verify : List Nat → List Nat → Option Bool)
    (decode : List Nat → Option DeviceBoundMessageMono) (hw : Bool) :
    ∀ (fuel : Nat) (stream : List (List Nat)) (x : String),
      Action.sent (ServerBoundSimpleMessage.Identify x) ∉
        (receive_loop id verify decode hw fuel stream).2 := by
  intro fuel
  induction fuel with
  | zero =>
      intro stream x
      simp [receive_loop]
  | succ fuel ih =>
      intro stream x
      unfold receive_loop
      rcases hlen : read_length stream with e | lr
      · simp
      · obtain ⟨len, rest⟩ := lr
        simp only []
        rcases hres : (handle_message id verify decode hw len rest).result with e | sw
        · intro hmem
          simp only [List.mem_cons] at hmem
          rcases hmem with h | h
          · cases h
          · exact handle_message_trace_no_sent id verify decode hw len rest _ h
        · obtain ⟨sends, w⟩ := sw
          intro hmem
          simp only [List.cons_append, List.append_assoc, List.mem_cons,
            List.mem_append, List.mem_map] at hmem
          rcases hmem with h | h | ⟨m, hm, hsent⟩ | h
          · cases h
          · exact handle_message_trace_no_sent id verify decode hw len rest _ h
          · rw [Action.sent.injEq] at hsent
            rw [hsent] at hm
            exact handle_message_ok_no_identify id verify decode hw len rest sends w
              hres x hm
          · exact ih _ x h

/-- C3 counterexample: the identify frame for a 2-byte payload declares
length 2 — the payload length alone, not `SIGNATURE_LEN + 2` — and its body
is exactly the bare payload with no signature in front, so the Identify
message is not framed and signed like every other outbound message. -/
theorem c3_counterexample :
    u32_from_be ((send_identify_bytes [1, 2]).take 4) = 2 ∧
    (send_identify_bytes [1, 2]).drop 4 = [1, 2] ∧
    SIGNATURE_LEN + 2 ≠ 2 := by
  decide

/-- C3 (amended): immediately after a stream opens and before any frame is
read, exactly one Identify message is sent (none is ever sent afterwards);
but unlike every other outbound message — which is framed as a 4-byte
big-endian length equal to `sig_len + payload_len`, then the signature, then
the payload — the identify frame is unsigned: its 4-byte big-endian length
prefix is the payload length alone and is followed directly by the
payload. -/
theorem c3_identify_unsigned_and_once :
    (∀ (id : String) (encode : ServerBoundSimpleMessage → List Nat)
        (verify : List Nat → List Nat → Option Bool)
        (decode : List Nat → Option DeviceBoundMessageMono) (hw : Bool)
        (fuel : Nat) (stream : List (List Nat)),
        ∃ t, (open_connection id encode verify decode hw fuel stream).2 =
            Action.wrote_bytes
                (send_identify_bytes (encode (ServerBoundSimpleMessage.Identify id))) ::
              Action.sent (ServerBoundSimpleMessage.Identify id) :: t ∧
          ∀ x, Action.sent (ServerBoundSimpleMessage.Identify x) ∉ t) ∧
    (∀ (p : List Nat),
        u32_from_be ((send_identify_bytes p).take 4) = p.length % 2 ^ 32 ∧
        (send_identify_bytes p).drop 4 = p) ∧
    (∀ (sig p : List Nat),
        u32_from_be ((send_message_bytes sig p).take 4) =
          (sig.length + p.length) % 2 ^ 32 ∧
        (send_message_bytes sig p).drop 4 = sig ++ p) := by
  refine ⟨?_, ?_, ?_⟩
  · intro id encode verify decode hw fuel stream
    exact ⟨(receive_loop id verify decode hw fuel stream).2, rfl,
      fun x => receive_loop_no_identify id verify decode hw fuel stream x⟩
  · intro p
    constructor
    · have h1 : (send_identify_bytes p).take 4 = u32_be p.length := rfl
      rw [h1]
      simp only [u32_be, u32_from_be, List.foldl]
      omega
    · rfl
  · intro sig p
    constructor
    · have h1 : (send_message_bytes sig p).take 4 = u32_be (sig.length + p.length) := rfl
      rw [h1]
      simp only [u32_be, u32_from_be, List.foldl]
      omega
    · rfl

/-- C10 counterexample: the same inbound message — a StateQuery whose
device_id does not match the local id — makes the decoupled dispatcher
ignore it (no state change, nothing emitted, loop continues) while the
monolithic dispatcher fails with a connection-fatal error, so the two
dispatcher variants are not behaviourally equivalent. -/
theorem c10_counterexample :
    app_step "light-1" true ⟨0⟩
        (TransportEvent.Message (DeviceBoundSimpleMessage.StateQuery "light-2")) =
      ⟨⟨0⟩, [], []⟩ ∧
    mono_dispatch "light-1" true (DeviceBoundMessageMono.StateQuery "light-2") =
      Except.error "State query notification does not match this device id!" := by
  constructor <;> decide

/-- C10 (amended): the two dispatcher variants are not behaviourally
equivalent.  They do agree on matching-id absolute Brightness(b) commands
with b ≤ 100 and a successful hardware write — both install brightness b and
report the same (power, brightness) = (b > 0, b) — but they diverge on
mismatched device ids (the decoupled dispatcher ignores the message, the
monolithic one returns a connection-fatal error) and on Power(true) (the
decoupled dispatcher writes the fixed duty 1, the monolithic one performs no
hardware write at all). -/
theorem c10_dispatchers_not_equivalent :
    (∀ (id : String) (b : Nat), b ≤ 100 → ∀ (cur : NumericState),
        ∃ sA sM,
          (app_step id true cur
              (TransportEvent.Message
                (DeviceBoundSimpleMessage.UpdateCommand
                  ⟨id, AttributeUpdate.Brightness b⟩))).sent =
            [ServerBoundSimpleMessage.UpdateNotification ⟨id, true, sA⟩] ∧
          mono_dispatch id true
              (DeviceBoundMessageMono.UpdateCommand
                ⟨id, DeviceStateUpdate.LedStrip ⟨none, some b⟩⟩) =
            Except.ok
              ([ServerBoundSimpleMessage.UpdateNotification ⟨id, true, sM⟩], [b]) ∧
          state_repr sA = state_repr sM ∧
          state_repr sA = (decide (b > 0), b) ∧
          (app_step id true cur
              (TransportEvent.Message
                (DeviceBoundSimpleMessage.UpdateCommand
                  ⟨id, AttributeUpdate.Brightness b⟩))).state.value = b) ∧
    (∀ (id : String) (hw : Bool) (cur : NumericState) (q : String),
        q ≠ id →
        app_step id hw cur
            (TransportEvent.Message (DeviceBoundSimpleMessage.StateQuery q)) =
          ⟨cur, [], []⟩ ∧
        ∃ e, mono_dispatch id hw (DeviceBoundMessageMono.StateQuery q) =
          Except.error e) ∧
    (∀ (id : String) (cur : NumericState),
        (app_step id true cur
            (TransportEvent.Message
              (DeviceBoundSimpleMessage.UpdateCommand
                ⟨id, AttributeUpdate.Power SwitchPower.On⟩))).duty_writes = [1] ∧
        ∀ (hw : Bool) (cb : Nat),
          update_state hw (DeviceStateUpdate.LedStrip ⟨some true, none⟩) cb =
            Except.ok (cb, [])) := by
  refine ⟨?_, ?_, ?_⟩
  · intro id b hb cur
    have happ : apply_to BRIGHTNESS_PROPS b cur = b := by
      simp [apply_to, BRIGHTNESS_PROPS]
      omega
    refine ⟨DeviceState.DimmableLight
        ⟨if b > 0 then SwitchPower.On else SwitchPower.Off, ⟨b⟩⟩,
      DeviceState.LedStrip ⟨decide (b > 0), b⟩, ?_, ?_, ?_, ?_, ?_⟩
    · simp [app_step, target_brightness, happ, build_state]
    · simp [mono_dispatch, update_state, option_min, query_state, Nat.min_eq_left hb]
    · by_cases hpos : b > 0 <;> simp [state_repr, hpos]
    · by_cases hpos : b > 0 <;> simp [state_repr, hpos]
    · simp [app_step, target_brightness, happ]
  · intro id hw cur q hq
    exact ⟨by simp [app_step, hq],
      "State query notification does not match this device id!",
      by simp [mono_dispatch, hq]⟩
  · intro id cur
    refine ⟨by simp [app_step, target_brightness], ?_⟩
    intro hw cb
    simp [update_state, option_min]

/-- C10 witness: the amended theorem evaluated concretely — agreement at
Brightness(70) and divergence at a mismatched StateQuery. -/
theorem c10_dispatchers_not_equivalent_witness :
    (∃ sA sM,
        (app_step "light-1" true ⟨0⟩
            (TransportEvent.Message
              (DeviceBoundSimpleMessage.UpdateCommand
                ⟨"light-1", AttributeUpdate.Brightness 70⟩))).sent =
          [ServerBoundSimpleMessage.UpdateNotification ⟨"light-1", true, sA⟩] ∧
        mono_dispatch "light-1" true
            (DeviceBoundMessageMono.UpdateCommand
              ⟨"light-1", DeviceStateUpdate.LedStrip ⟨none, some 70⟩⟩) =
          Except.ok
            ([ServerBoundSimpleMessage.UpdateNotification ⟨"light-1", true, sM⟩],
             [70]) ∧
        state_repr sA = state_repr sM ∧
        state_repr sA = (decide (70 > 0), 70) ∧
        (app_step "light-1" true ⟨0⟩
            (TransportEvent.Message
              (DeviceBoundSimpleMessage.UpdateCommand
                ⟨"light-1", AttributeUpdate.Brightness 70⟩))).state.value = 70) ∧
    (app_step "light-1" true ⟨0⟩
        (TransportEvent.Message (DeviceBoundSimpleMessage.StateQuery "light-2")) =
      ⟨⟨0⟩, [], []⟩ ∧
    ∃ e, mono_dispatch "light-1" true (DeviceBoundMessageMono.StateQuery "light-2") =
      Except.error e) :=
  ⟨c10_dispatchers_not_equivalent.1 "light-1" 70 (by decide) ⟨0⟩,
   c10_dispatchers_not_equivalent.2.1 "light-1" true ⟨0⟩ "light-2" (by decide)⟩

end Spec2Proof
